import Mathlib

/-!
Shallow embedding of the JobSpy orchestration layer: the interactive UI
(app.py) and the batch script (test.py). Both call an external scraping
service once per job title, tag each returned row with the originating
search term, and concatenate the per-title tables into one result table.

The external service (scrape_jobs) is modelled as an opaque function from
the search term to a list of job posting rows. The remaining scrape
parameters (site list, location, country, filters) are held constant for
the duration of a run - the loops vary only the search term (and the
google search string derived from it) - so they are ambient in the scrape
function rather than explicit arguments. A fallible variant models
exceptions raised by the service with Except.
-/

/-- One job posting row as returned by the external service, with the
columns the UI reads: title, company, location, site, job_url,
description. -/
structure JobRow where
  title : String
  company : String
  location : String
  site : String
  job_url : String
  description : String
deriving DecidableEq

/-- A job posting row after the orchestration layer has tagged it with the
originating search term (the assignment jobs_df['search_term'] =
search_term in app.py line 154 and test.py line 25). -/
structure TaggedRow where
  row : JobRow
  search_term : String
deriving DecidableEq

/-- Python str.split('\n') on the character list: splits at every newline,
keeping empty pieces, so the result is always non-empty. -/
def split_newlines : List Char → List (List Char)
  | [] => [[]]
  | c :: cs =>
    match split_newlines cs with
    | [] => [[]]
    | l :: ls => if c = '\n' then [] :: l :: ls else (c :: l) :: ls

/-- Python str.strip() on the character list: removes leading and trailing
whitespace characters. -/
def py_strip (cs : List Char) : List Char :=
  ((cs.dropWhile Char.isWhitespace).reverse.dropWhile Char.isWhitespace).reverse

/-- app.py line 19: job_titles_to_search = [title.strip() for title in
job_titles_str.split('\n') if title.strip()]. The comprehension filters on
the truthiness (non-emptiness) of the stripped line, then keeps the
stripped line. -/
def job_titles_to_search (job_titles_str : String) : List String :=
  (split_newlines job_titles_str.data).filterMap (fun title =>
    if (py_strip title).isEmpty then none else some (String.mk (py_strip title)))

/-- test.py lines 5-28, search_for_title: calls the external service for one
term and tags every returned row with that term. In the source the tag
column is only assigned when the result is non-empty, but tagging an empty
table produces the same (empty) row list, so the guard is invisible at row
level. -/
def search_for_title (scrape : String → List JobRow) (search_term : String) :
    List TaggedRow :=
  (scrape search_term).map (fun r => TaggedRow.mk r search_term)

/-- app.py lines 131-155: the sequential search loop over the job titles,
carrying the all_jobs accumulator. A title whose scrape result is empty
appends nothing to all_jobs. -/
def ui_loop (scrape : String → List JobRow) :
    List String → List (List TaggedRow) → List (List TaggedRow)
  | [], all_jobs => all_jobs
  | search_term :: rest, all_jobs =>
    let jobs_df := scrape search_term
    ui_loop scrape rest
      (if jobs_df.isEmpty then all_jobs
       else all_jobs ++ [jobs_df.map (fun r => TaggedRow.mk r search_term)])

/-- The all_jobs list produced by the sequential UI loop started from the
empty accumulator (app.py line 126). -/
def ui_all_jobs (scrape : String → List JobRow) (titles : List String) :
    List (List TaggedRow) :=
  ui_loop scrape titles []

/-- app.py lines 125-162, the body of the search handler after the two
guards: st.session_state.jobs_df is cleared, the loop runs, and then either
the concatenation pd.concat(all_jobs) is stored (the if all_jobs guard
makes the concat total) or the no-jobs warning is surfaced with the session
table left cleared. Returns the stored jobs_df and whether the no-jobs
warning was shown; the previous session table is overwritten before the
loop starts, so prev_jobs_df never reaches the result. -/
def run_search (scrape : String → List JobRow) (titles : List String)
    (prev_jobs_df : List TaggedRow) : List TaggedRow × Bool :=
  let jobs_df : List TaggedRow := []
  let all_jobs := ui_all_jobs scrape titles
  if all_jobs.isEmpty then (jobs_df, true)
  else (all_jobs.flatten, false)

/-- Outcome of pressing the search button (app.py lines 71-76): one of the
two validation warnings, or a completed run carrying the stored table and
the no-jobs-warning flag. -/
inductive UIOutcome where
  | warnNoTitles : UIOutcome
  | warnNoSites : UIOutcome
  | ran : List TaggedRow → Bool → UIOutcome
deriving DecidableEq

/-- app.py lines 71-162: the search button handler. An empty title list or
an empty site selection warns without dispatching; otherwise the search
loop runs. -/
def search_button (scrape : String → List JobRow) (titles sites : List String)
    (prev_jobs_df : List TaggedRow) : UIOutcome :=
  if titles.isEmpty then .warnNoTitles
  else if sites.isEmpty then .warnNoSites
  else
    let p := run_search scrape titles prev_jobs_df
    .ran p.1 p.2

/-- app.py line 165: the results view (success banner, CSV download button,
per-term expanders) renders only when the stored session table is
non-empty. -/
def results_view_shown (jobs_df : List TaggedRow) : Bool :=
  !jobs_df.isEmpty

/-- test.py lines 36-41: the as_completed loop appends each future's result
to all_jobs in completion order. The completion order is an arbitrary
permutation of the submitted titles, so it is the explicit input here. -/
def batch_loop (scrape : String → List JobRow) :
    List String → List (List TaggedRow) → List (List TaggedRow)
  | [], all_jobs => all_jobs
  | t :: rest, all_jobs => batch_loop scrape rest (all_jobs ++ [search_for_title scrape t])

/-- The all_jobs collection of the batch script, started from the empty
list (test.py line 34). -/
def batch_all_jobs (scrape : String → List JobRow) (completion_order : List String) :
    List (List TaggedRow) :=
  batch_loop scrape completion_order []

/-- pandas pd.concat: raises ValueError on an empty input list, otherwise
concatenates the row lists in order. -/
def pd_concat (dfs : List (List TaggedRow)) : Option (List TaggedRow) :=
  if dfs.isEmpty then none else some dfs.flatten

/-- test.py line 44: combined_jobs_df = pd.concat(all_jobs,
ignore_index=True), applied to the collection gathered in completion
order. -/
def batch_run (scrape : String → List JobRow) (completion_order : List String) :
    Option (List TaggedRow) :=
  pd_concat (batch_all_jobs scrape completion_order)

/-- Fallible variant of search_for_title: the external service may raise,
modelled by Except; test.py has no try/except, so the error passes
through. -/
def search_for_titleE (scrapeE : String → Except Unit (List JobRow))
    (search_term : String) : Except Unit (List TaggedRow) :=
  match scrapeE search_term with
  | .error e => .error e
  | .ok jobs_df => .ok (jobs_df.map (fun r => TaggedRow.mk r search_term))

/-- Fallible variant of the sequential UI loop: app.py wraps no try/except
around scrape_jobs, so a raised error aborts the loop at that title. -/
def ui_loopE (scrapeE : String → Except Unit (List JobRow)) :
    List String → List (List TaggedRow) → Except Unit (List (List TaggedRow))
  | [], all_jobs => .ok all_jobs
  | search_term :: rest, all_jobs =>
    match scrapeE search_term with
    | .error e => .error e
    | .ok jobs_df =>
      ui_loopE scrapeE rest
        (if jobs_df.isEmpty then all_jobs
         else all_jobs ++ [jobs_df.map (fun r => TaggedRow.mk r search_term)])

/-- Fallible variant of run_search: an error anywhere in the loop aborts
the handler before any table is stored. -/
def run_searchE (scrapeE : String → Except Unit (List JobRow))
    (titles : List String) (prev_jobs_df : List TaggedRow) :
    Except Unit (List TaggedRow × Bool) :=
  match ui_loopE scrapeE titles [] with
  | .error e => .error e
  | .ok all_jobs =>
    .ok (if all_jobs.isEmpty then (([] : List TaggedRow), true)
         else (all_jobs.flatten, false))

/-- Fallible variant of the batch as_completed loop: future.result()
re-raises the task's exception in the main thread, aborting the loop at
the first errored future in completion order. -/
def batch_loopE (scrapeE : String → Except Unit (List JobRow)) :
    List String → List (List TaggedRow) → Except Unit (List (List TaggedRow))
  | [], all_jobs => .ok all_jobs
  | t :: rest, all_jobs =>
    match search_for_titleE scrapeE t with
    | .error e => .error e
    | .ok df => batch_loopE scrapeE rest (all_jobs ++ [df])

/-- Fallible variant of the whole batch run: collect, then concat; an
error anywhere means no combined table (and so no spreadsheet) is
produced. -/
def batch_runE (scrapeE : String → Except Unit (List JobRow))
    (completion_order : List String) : Except Unit (List TaggedRow) :=
  match batch_loopE scrapeE completion_order [] with
  | .error e => .error e
  | .ok all_jobs =>
    match pd_concat all_jobs with
    | none => .error ()
    | some df => .ok df

/-- Concrete row used in scenario stubs. -/
def row1 : JobRow :=
  ⟨"Data Engineer", "Acme", "London", "indeed", "u1", "d1"⟩

/-- Concrete row used in scenario stubs. -/
def row2 : JobRow :=
  ⟨"Data Analyst", "Beta", "London", "linkedin", "u2", "d2"⟩

/-- Concrete row used in scenario stubs. -/
def row3 : JobRow :=
  ⟨"Data Scientist", "Gamma", "London", "google", "u3", "d3"⟩

/-- External service stub for the concrete scenario: three rows for title
A, an empty result for every other title. -/
def scrapeAB : String → List JobRow :=
  fun search_term => if search_term = "A" then [row1, row2, row3] else []

/-- Fallible external service stub: raises on title A, returns one row
otherwise. -/
def scrapeErrA : String → Except Unit (List JobRow) :=
  fun search_term => if search_term = "A" then .error () else .ok [row1]

example : (run_search scrapeAB ["A", "B"] []).1.length = 3 := by decide
example : batch_run scrapeAB ["B", "A"] =
    some [⟨row1, "A"⟩, ⟨row2, "A"⟩, ⟨row3, "A"⟩] := by decide
example : run_searchE scrapeErrA ["B", "A", "B"] [] = .error () := rfl
example : job_titles_to_search "  a \n\n b\n " = ["a", "b"] := by decide

/-- The sequential UI loop equals the accumulator followed by the tagged
results of the titles whose scrape result is non-empty, in title order. -/
theorem ui_loop_eq (scrape : String → List JobRow) :
    ∀ (ts : List String) (acc : List (List TaggedRow)),
      ui_loop scrape ts acc
        = acc ++ (ts.filter (fun t => !(scrape t).isEmpty)).map (search_for_title scrape) := by
  intro ts
  induction ts with
  | nil => intro acc; simp [ui_loop]
  | cons t rest ih =>
    intro acc
    by_cases h : (scrape t).isEmpty <;>
      simp [ui_loop, h, List.filter_cons, ih, search_for_title, List.append_assoc]

/-- Closed form of the all_jobs collection built by the UI loop. -/
theorem ui_all_jobs_eq (scrape : String → List JobRow) (titles : List String) :
    ui_all_jobs scrape titles
      = (titles.filter (fun t => !(scrape t).isEmpty)).map (search_for_title scrape) := by
  simpa [ui_all_jobs] using ui_loop_eq scrape titles []

/-- Dropping the empty per-title blocks before concatenating changes
nothing: the flattened table is the same as flattening every block. -/
theorem flatten_filter_nonempty (scrape : String → List JobRow) :
    ∀ titles : List String,
      ((titles.filter (fun t => !(scrape t).isEmpty)).map (search_for_title scrape)).flatten
        = (titles.map (search_for_title scrape)).flatten := by
  intro titles
  induction titles with
  | nil => rfl
  | cons t rest ih =>
    by_cases h : (scrape t).isEmpty
    · have ht : scrape t = [] := List.isEmpty_iff.mp h
      simp [List.filter_cons, h, ih, search_for_title, ht]
    · simp [List.filter_cons, h, ih]

/-- The table stored by run_search is always the flattening of the
all_jobs collection (in the no-jobs branch both sides are empty). -/
theorem run_search_fst_flatten (scrape : String → List JobRow) (titles : List String)
    (prev : List TaggedRow) :
    (run_search scrape titles prev).1 = (ui_all_jobs scrape titles).flatten := by
  unfold run_search
  by_cases h : (ui_all_jobs scrape titles).isEmpty
  · simp [h, List.isEmpty_iff.mp h]
  · simp [h]

/-- The table stored by run_search is the concatenation of the tagged
per-title results, in title order. -/
theorem run_search_fst (scrape : String → List JobRow) (titles : List String)
    (prev : List TaggedRow) :
    (run_search scrape titles prev).1 = (titles.map (search_for_title scrape)).flatten := by
  rw [run_search_fst_flatten, ui_all_jobs_eq, flatten_filter_nonempty]

/-- The batch loop appends the tagged per-title results after the
accumulator, in completion order. -/
theorem batch_loop_eq (scrape : String → List JobRow) :
    ∀ (ts : List String) (acc : List (List TaggedRow)),
      batch_loop scrape ts acc = acc ++ ts.map (search_for_title scrape) := by
  intro ts
  induction ts with
  | nil => intro acc; simp [batch_loop]
  | cons t rest ih => intro acc; simp [batch_loop, ih]

/-- Closed form of the batch all_jobs collection. -/
theorem batch_all_jobs_eq (scrape : String → List JobRow) (completion_order : List String) :
    batch_all_jobs scrape completion_order
      = completion_order.map (search_for_title scrape) := by
  simpa [batch_all_jobs] using batch_loop_eq scrape completion_order []

/-- For a non-empty completion order the batch run produces the
concatenation of the tagged per-title results in completion order. -/
theorem batch_run_eq (scrape : String → List JobRow) (completion_order : List String)
    (hne : completion_order ≠ []) :
    batch_run scrape completion_order
      = some ((completion_order.map (search_for_title scrape)).flatten) := by
  unfold batch_run pd_concat
  rw [batch_all_jobs_eq]
  simp [hne]

/-- Row count of the concatenated table: the sum of the per-title row
counts returned by the external service. -/
theorem flatten_map_length (scrape : String → List JobRow) (titles : List String) :
    ((titles.map (search_for_title scrape)).flatten).length
      = (titles.map (fun t => (scrape t).length)).sum := by
  have hcomp : (List.length ∘ search_for_title scrape) = fun t => (scrape t).length := by
    funext t
    simp [search_for_title]
  rw [List.length_flatten, List.map_map, hcomp]

/-- Every row of the concatenated table carries the tag of the title whose
scrape result contained it, and the underlying row is untouched. -/
theorem mem_flatten_table (scrape : String → List JobRow) (titles : List String)
    (tr : TaggedRow) (h : tr ∈ (titles.map (search_for_title scrape)).flatten) :
    tr.search_term ∈ titles ∧ tr.row ∈ scrape tr.search_term := by
  rcases List.mem_flatten.mp h with ⟨l, hl, htr⟩
  rcases List.mem_map.mp hl with ⟨t, ht, rfl⟩
  rcases List.mem_map.mp htr with ⟨r, hr, rfl⟩
  exact ⟨ht, hr⟩

/-- A title with an empty scrape result contributes nothing to the sum of
row counts: the title can be erased without changing the sum. -/
theorem sum_erase_of_empty (scrape : String → List JobRow) {titles : List String}
    {t : String} (hmem : t ∈ titles) (hempty : scrape t = []) :
    (titles.map (fun u => (scrape u).length)).sum
      = ((titles.erase t).map (fun u => (scrape u).length)).sum := by
  have hp := List.perm_cons_erase hmem
  rw [(hp.map _).sum_eq]
  simp [hempty]

/-- The UI all_jobs collection never contains an empty block. -/
theorem nil_not_mem_ui_all_jobs (scrape : String → List JobRow) (titles : List String) :
    [] ∉ ui_all_jobs scrape titles := by
  rw [ui_all_jobs_eq]
  intro h
  rcases List.mem_map.mp h with ⟨u, hu, hequ⟩
  have hcond := List.of_mem_filter hu
  have : scrape u = [] := by
    have := hequ.symm
    simpa [search_for_title, List.map_eq_nil_iff] using this
  simp [this] at hcond

/-- If any title in the list scrapes to an error, the fallible UI loop
aborts with that error, whatever the accumulator. -/
theorem ui_loopE_error (scrapeE : String → Except Unit (List JobRow)) :
    ∀ (ts : List String) (t : String), t ∈ ts → scrapeE t = .error () →
      ∀ acc, ui_loopE scrapeE ts acc = .error () := by
  intro ts
  induction ts with
  | nil => intro t ht; cases ht
  | cons u rest ih =>
    intro t ht herr acc
    rcases List.mem_cons.mp ht with rfl | hmem
    · simp [ui_loopE, herr]
    · cases hu : scrapeE u with
      | error e => cases e; simp [ui_loopE, hu]
      | ok df =>
        simp only [ui_loopE, hu]
        exact ih t hmem herr _

/-- An error on any title aborts the whole UI handler: no table is stored. -/
theorem run_searchE_error (scrapeE : String → Except Unit (List JobRow))
    (titles : List String) (prev : List TaggedRow) (t : String)
    (hmem : t ∈ titles) (herr : scrapeE t = .error ()) :
    run_searchE scrapeE titles prev = .error () := by
  unfold run_searchE
  rw [ui_loopE_error scrapeE titles t hmem herr []]

/-- If any title in the completion order scrapes to an error, the fallible
batch loop aborts with that error, whatever the accumulator. -/
theorem batch_loopE_error (scrapeE : String → Except Unit (List JobRow)) :
    ∀ (ts : List String) (t : String), t ∈ ts → scrapeE t = .error () →
      ∀ acc, batch_loopE scrapeE ts acc = .error () := by
  intro ts
  induction ts with
  | nil => intro t ht; cases ht
  | cons u rest ih =>
    intro t ht herr acc
    rcases List.mem_cons.mp ht with rfl | hmem
    · simp [batch_loopE, search_for_titleE, herr]
    · cases hu : scrapeE u with
      | error e => cases e; simp [batch_loopE, search_for_titleE, hu]
      | ok df =>
        simp only [batch_loopE, search_for_titleE, hu]
        exact ih t hmem herr _

/-- An error on any title aborts the whole batch run: no combined table is
produced. -/
theorem batch_runE_error (scrapeE : String → Except Unit (List JobRow))
    (completion_order : List String) (t : String)
    (hmem : t ∈ completion_order) (herr : scrapeE t = .error ()) :
    batch_runE scrapeE completion_order = .error () := by
  unfold batch_runE
  rw [batch_loopE_error scrapeE completion_order t hmem herr []]

/-- Projection of a string built from an explicit character list. -/
theorem data_mk (cs : List Char) : (String.mk cs).data = cs := rfl

/-- The line comprehension equals stripping every line and keeping the
non-empty results, in order. -/
theorem filterMap_strip_eq (ls : List (List Char)) :
    (ls.filterMap (fun title =>
        if (py_strip title).isEmpty then none else some (String.mk (py_strip title))))
      = (ls.map (fun l => String.mk (py_strip l))).filter (fun t => !t.data.isEmpty) := by
  induction ls with
  | nil => rfl
  | cons l ls ih =>
    simp only [List.isEmpty_iff] at ih
    by_cases h : py_strip l = [] <;>
      simp [List.filterMap_cons, List.filter_cons, List.isEmpty_iff, data_mk, h, ih]

/-- C1: for every non-empty list of job titles and at least one selected
site, the aggregate result table produced by dispatch has a row count equal
to the sum of the per-title row counts returned by the external service -
in the interactive UI (any service, any prior session state) and in the
batch script (any completion order of the submitted titles). -/
theorem C1_row_count (scrape : String → List JobRow)
    (titles sites completion_order : List String) (prev : List TaggedRow)
    (htitles : titles ≠ []) (hsites : sites ≠ [])
    (hperm : completion_order.Perm titles) :
    (search_button scrape titles sites prev
        = UIOutcome.ran (run_search scrape titles prev).1 (run_search scrape titles prev).2)
      ∧ (run_search scrape titles prev).1.length
          = (titles.map (fun t => (scrape t).length)).sum
      ∧ ∃ df, batch_run scrape completion_order = some df
          ∧ df.length = (titles.map (fun t => (scrape t).length)).sum := by
  refine ⟨?_, ?_, ?_⟩
  · unfold search_button
    simp [List.isEmpty_iff, htitles, hsites]
  · rw [run_search_fst, flatten_map_length]
  · have hone : completion_order ≠ [] := by
      intro h0
      subst h0
      exact htitles hperm.symm.eq_nil
    refine ⟨_, batch_run_eq scrape completion_order hone, ?_⟩
    rw [flatten_map_length]
    exact (hperm.map _).sum_eq

/-- Witness for C1 at a concrete service, title list, site list and
completion order. -/
theorem C1_row_count_witness :
    ((["A", "B"] : List String) ≠ [] ∧ (["indeed"] : List String) ≠ []
        ∧ (["B", "A"] : List String).Perm ["A", "B"])
      ∧ ((search_button scrapeAB ["A", "B"] ["indeed"] []
            = UIOutcome.ran (run_search scrapeAB ["A", "B"] []).1
                (run_search scrapeAB ["A", "B"] []).2)
          ∧ (run_search scrapeAB ["A", "B"] []).1.length
              = ((["A", "B"] : List String).map (fun t => (scrapeAB t).length)).sum
          ∧ ∃ df, batch_run scrapeAB ["B", "A"] = some df
              ∧ df.length = ((["A", "B"] : List String).map (fun t => (scrapeAB t).length)).sum) :=
  ⟨⟨by decide, by decide, by decide⟩,
    C1_row_count scrapeAB ["A", "B"] ["indeed"] ["B", "A"] [] (by decide) (by decide) (by decide)⟩

/-- C2: every row of the aggregate table carries the search term of the
title whose dispatch produced it, and the underlying row is exactly one the
external service returned for that title - the system adds only the tag -
in both the UI and the batch script. -/
theorem C2_search_term_tag (scrape : String → List JobRow)
    (titles completion_order : List String) (prev : List TaggedRow) :
    (∀ tr ∈ (run_search scrape titles prev).1,
        tr.search_term ∈ titles ∧ tr.row ∈ scrape tr.search_term)
      ∧ (∀ df, batch_run scrape completion_order = some df →
          ∀ tr ∈ df, tr.search_term ∈ completion_order ∧ tr.row ∈ scrape tr.search_term) := by
  constructor
  · intro tr htr
    rw [run_search_fst] at htr
    exact mem_flatten_table scrape titles tr htr
  · intro df hdf tr htr
    unfold batch_run pd_concat at hdf
    rw [batch_all_jobs_eq] at hdf
    by_cases h : (completion_order.map (search_for_title scrape)).isEmpty
    · simp [h] at hdf
    · simp [h] at hdf
      subst hdf
      exact mem_flatten_table scrape completion_order tr htr

/-- Witness for C2: the first row of the concrete scenario table is the
service's row for title A, tagged A. -/
theorem C2_search_term_tag_witness :
    (⟨row1, "A"⟩ : TaggedRow) ∈ (run_search scrapeAB ["A", "B"] []).1
      ∧ ((⟨row1, "A"⟩ : TaggedRow).search_term ∈ (["A", "B"] : List String)
          ∧ (⟨row1, "A"⟩ : TaggedRow).row ∈ scrapeAB (⟨row1, "A"⟩ : TaggedRow).search_term) :=
  ⟨by decide, (C2_search_term_tag scrapeAB ["A", "B"] ["B", "A"] []).1 ⟨row1, "A"⟩ (by decide)⟩

/-- C3 counterexample: in the batch script a title whose external call
returns an empty result is NOT skipped - its empty result is appended to
the all_jobs collection: for the single title A with an empty scrape
result the collection is the one-element list containing an empty table,
not the empty collection. -/
theorem C3_counterexample :
    batch_all_jobs (fun _ => ([] : List JobRow)) ["A"] = [[]]
      ∧ [] ∈ batch_all_jobs (fun _ => ([] : List JobRow)) ["A"] := by
  exact ⟨rfl, by decide⟩

/-- C3 (amended): a title whose external call returns an empty result
contributes zero rows to the aggregate table and never errors the run; the
interactive UI silently skips it (no empty block ever enters its all_jobs
collection), while the batch script does append the empty per-title result
to its collection. -/
theorem C3_amended_empty_title (scrape : String → List JobRow)
    (titles completion_order : List String) (t : String) (prev : List TaggedRow)
    (hmem : t ∈ titles) (hempty : scrape t = [])
    (hperm : completion_order.Perm titles) :
    (run_search scrape titles prev).1.length
        = ((titles.erase t).map (fun u => (scrape u).length)).sum
      ∧ [] ∉ ui_all_jobs scrape titles
      ∧ [] ∈ batch_all_jobs scrape completion_order
      ∧ ∃ df, batch_run scrape completion_order = some df
          ∧ df.length = ((titles.erase t).map (fun u => (scrape u).length)).sum := by
  have hmemo : t ∈ completion_order := hperm.mem_iff.mpr hmem
  have hone : completion_order ≠ [] := List.ne_nil_of_mem hmemo
  refine ⟨?_, nil_not_mem_ui_all_jobs scrape titles, ?_, ?_⟩
  · rw [run_search_fst, flatten_map_length, sum_erase_of_empty scrape hmem hempty]
  · rw [batch_all_jobs_eq]
    have hblock : ([] : List TaggedRow) = search_for_title scrape t := by
      simp [search_for_title, hempty]
    rw [hblock]
    exact List.mem_map_of_mem _ hmemo
  · refine ⟨_, batch_run_eq scrape completion_order hone, ?_⟩
    rw [flatten_map_length,
      List.Perm.sum_eq (hperm.map (fun u => (scrape u).length)),
      sum_erase_of_empty scrape hmem hempty]

/-- Witness for the amended C3: title B scrapes to the empty result in the
concrete scenario. -/
theorem C3_amended_empty_title_witness :
    ("B" ∈ (["A", "B"] : List String) ∧ scrapeAB "B" = []
        ∧ (["B", "A"] : List String).Perm ["A", "B"])
      ∧ ((run_search scrapeAB ["A", "B"] []).1.length
            = (((["A", "B"] : List String).erase "B").map (fun u => (scrapeAB u).length)).sum
          ∧ [] ∉ ui_all_jobs scrapeAB ["A", "B"]
          ∧ [] ∈ batch_all_jobs scrapeAB ["B", "A"]
          ∧ ∃ df, batch_run scrapeAB ["B", "A"] = some df
              ∧ df.length
                  = (((["A", "B"] : List String).erase "B").map
                      (fun u => (scrapeAB u).length)).sum) :=
  ⟨⟨by decide, by decide, by decide⟩,
    C3_amended_empty_title scrapeAB ["A", "B"] ["B", "A"] "B" [] (by decide) (by decide)
      (by decide)⟩

/-- C4: an error raised by the external service on any dispatched title is
not caught by the orchestration layer: the UI handler and the batch run
both abort with the error, producing no aggregate table (hence no CSV and
no spreadsheet). -/
theorem C4_error_propagates (scrapeE : String → Except Unit (List JobRow))
    (titles completion_order : List String) (prev : List TaggedRow) (t : String)
    (hperm : completion_order.Perm titles) (hmem : t ∈ titles)
    (herr : scrapeE t = .error ()) :
    run_searchE scrapeE titles prev = .error ()
      ∧ batch_runE scrapeE completion_order = .error () :=
  ⟨run_searchE_error scrapeE titles prev t hmem herr,
    batch_runE_error scrapeE completion_order t (hperm.mem_iff.mpr hmem) herr⟩

/-- Witness for C4 at a service that raises on title A. -/
theorem C4_error_propagates_witness :
    ((["A", "B"] : List String).Perm ["B", "A"]
        ∧ "A" ∈ (["B", "A"] : List String)
        ∧ scrapeErrA "A" = .error ())
      ∧ run_searchE scrapeErrA ["B", "A"] [] = .error ()
      ∧ batch_runE scrapeErrA ["A", "B"] = .error () :=
  ⟨⟨by decide, by decide, rfl⟩,
    C4_error_propagates scrapeErrA ["B", "A"] ["A", "B"] [] "A" (by decide) (by decide) rfl⟩

/-- C5: with an empty title list or an empty site selection the search
button only surfaces the corresponding warning; the outcome is then
independent of the external service and of the previous session state
(dispatch is never invoked), and these are the only two guards - for any
non-empty title list and non-empty site selection the search loop runs. -/
theorem C5_input_guards (scrape scrape2 : String → List JobRow)
    (titles sites : List String) (prev prev2 : List TaggedRow) :
    (titles = [] → search_button scrape titles sites prev = .warnNoTitles)
      ∧ (titles ≠ [] → sites = [] →
          search_button scrape titles sites prev = .warnNoSites)
      ∧ (titles = [] ∨ sites = [] →
          search_button scrape titles sites prev = search_button scrape2 titles sites prev2)
      ∧ (titles ≠ [] → sites ≠ [] →
          search_button scrape titles sites prev
            = .ran (run_search scrape titles prev).1 (run_search scrape titles prev).2) := by
  refine ⟨?_, ?_, ?_, ?_⟩
  · rintro rfl
    rfl
  · intro h1
    rintro rfl
    simp [search_button, List.isEmpty_iff, h1]
  · rintro (rfl | rfl)
    · rfl
    · unfold search_button
      by_cases h1 : titles.isEmpty <;> simp [h1]
  · intro h1 h2
    simp [search_button, List.isEmpty_iff, h1, h2]

/-- Witness for C5: each guard fires at a concrete input, and a valid
input dispatches. -/
theorem C5_input_guards_witness :
    ((["A"] : List String) ≠ [] ∧ ([] : List String) = []
        ∧ search_button scrapeAB ["A"] [] [] = UIOutcome.warnNoSites)
      ∧ ((["A"] : List String) ≠ [] ∧ (["indeed"] : List String) ≠ []
        ∧ search_button scrapeAB ["A"] ["indeed"] []
            = .ran (run_search scrapeAB ["A"] []).1 (run_search scrapeAB ["A"] []).2) :=
  ⟨⟨by decide, rfl,
      (C5_input_guards scrapeAB scrapeAB ["A"] [] [] []).2.1 (by decide) rfl⟩,
    ⟨by decide, by decide,
      (C5_input_guards scrapeAB scrapeAB ["A"] ["indeed"] [] []).2.2.2 (by decide) (by decide)⟩⟩

/-- C6: the aggregate table is the ordered concatenation of the tagged
per-title results - in dispatch (title) order for the interactive UI, in
completion order for the batch script. -/
theorem C6_concatenation_order (scrape : String → List JobRow)
    (titles completion_order : List String) (prev : List TaggedRow)
    (hne : completion_order ≠ []) :
    (run_search scrape titles prev).1 = (titles.map (search_for_title scrape)).flatten
      ∧ batch_run scrape completion_order
          = some ((completion_order.map (search_for_title scrape)).flatten) :=
  ⟨run_search_fst scrape titles prev, batch_run_eq scrape completion_order hne⟩

/-- Witness for C6 at the concrete scenario. -/
theorem C6_concatenation_order_witness :
    (["B", "A"] : List String) ≠ []
      ∧ (run_search scrapeAB ["A", "B"] []).1
          = ((["A", "B"] : List String).map (search_for_title scrapeAB)).flatten
      ∧ batch_run scrapeAB ["B", "A"]
          = some (((["B", "A"] : List String).map (search_for_title scrapeAB)).flatten) :=
  ⟨by decide, C6_concatenation_order scrapeAB ["A", "B"] ["B", "A"] [] (by decide)⟩

/-- C7: concrete scenario - titles A and B, the external service returns
three rows for A and none for B: the aggregate table has exactly three
rows, all tagged with search term A, in the UI and in the batch script
under either completion order. -/
theorem C7_concrete_scenario :
    (run_search scrapeAB ["A", "B"] []).1.length = 3
      ∧ (run_search scrapeAB ["A", "B"] []).1.all (fun tr => tr.search_term == "A") = true
      ∧ batch_run scrapeAB ["A", "B"] = some [⟨row1, "A"⟩, ⟨row2, "A"⟩, ⟨row3, "A"⟩]
      ∧ batch_run scrapeAB ["B", "A"] = some [⟨row1, "A"⟩, ⟨row2, "A"⟩, ⟨row3, "A"⟩] := by
  refine ⟨?_, ?_, ?_, ?_⟩ <;> decide

/-- C9: the dispatched title list consists exactly of the stripped lines
of the text area that are non-empty after stripping, in input order, and
consequently every dispatched search term is a non-empty string. -/
theorem C9_title_parsing (job_titles_str : String) :
    job_titles_to_search job_titles_str
        = ((split_newlines job_titles_str.data).map (fun l => String.mk (py_strip l))).filter
            (fun t => !t.data.isEmpty)
      ∧ ∀ t ∈ job_titles_to_search job_titles_str, t ≠ "" := by
  constructor
  · unfold job_titles_to_search
    exact filterMap_strip_eq _
  · intro t ht
    unfold job_titles_to_search at ht
    rcases List.mem_filterMap.mp ht with ⟨l, hl, hsome⟩
    intro habs
    by_cases h : (py_strip l).isEmpty
    · rw [if_pos h] at hsome
      exact Option.noConfusion hsome
    · rw [if_neg h] at hsome
      have hmk : String.mk (py_strip l) = t := Option.some.inj hsome
      apply h
      have hnil : py_strip l = [] := congrArg String.data (hmk.trans habs)
      rw [hnil]
      rfl

/-- Witness for C9 at a concrete text-area input with blank and padded
lines. -/
theorem C9_title_parsing_witness :
    job_titles_to_search " A\n\n B " = ["A", "B"]
      ∧ "A" ∈ job_titles_to_search " A\n\n B "
      ∧ "A" ≠ "" :=
  ⟨by decide, by decide, (C9_title_parsing " A\n\n B ").2 "A" (by decide)⟩

/-- C10: the search handler's outcome never depends on the previously
stored session table (it is cleared before dispatch begins), and when
every title scrapes to an empty result the stored table is left empty, the
no-jobs warning is shown, and the results view with its CSV download is
not rendered. -/
theorem C10_all_empty_run (scrape : String → List JobRow) (titles : List String)
    (prev prev2 : List TaggedRow) :
    run_search scrape titles prev = run_search scrape titles prev2
      ∧ ((∀ t ∈ titles, scrape t = []) →
          run_search scrape titles prev = ([], true)
            ∧ results_view_shown (run_search scrape titles prev).1 = false) := by
  constructor
  · rfl
  · intro hall
    have hnil : ui_all_jobs scrape titles = [] := by
      rw [ui_all_jobs_eq]
      have hfil : titles.filter (fun t => !(scrape t).isEmpty) = [] := by
        rw [List.filter_eq_nil_iff]
        intro a ha
        simp [hall a ha]
      rw [hfil]
      rfl
    have hfst : run_search scrape titles prev = ([], true) := by
      unfold run_search
      simp [hnil]
    exact ⟨hfst, by rw [hfst]; rfl⟩

/-- Witness for C10: both titles scrape to empty results, and a stale row
sits in the previous session table. -/
theorem C10_all_empty_run_witness :
    (∀ t ∈ (["B", "C"] : List String), scrapeAB t = [])
      ∧ run_search scrapeAB ["B", "C"] [⟨row1, "A"⟩] = ([], true)
      ∧ results_view_shown (run_search scrapeAB ["B", "C"] [⟨row1, "A"⟩]).1 = false :=
  ⟨by decide, (C10_all_empty_run scrapeAB ["B", "C"] [⟨row1, "A"⟩] []).2 (by decide)⟩
